import Mathlib

/-!
Shallow embedding of `cydr.py` from MicroPython_CYD_ESP32-2432S028R,
covering the touch-event store, double-tap detection, the RGB remap helper,
the SD-card state machine, the shutdown sequence, and the boot-button getter.
Coordinates and pin values are modelled as `Int`/`Nat`; Python float
arithmetic in `_remap` is modelled over `ℚ`.
-/

namespace Cydr

/-- The single-slot touch event store: the fields `self._x`, `self._y`
of the `CYD` class, written by `_touch_handler` and consumed by `touches`. -/
structure Store where
  x : Int
  y : Int
deriving DecidableEq, Repr

/-- Embeds `CYD._touch_handler(self, x, y)`: mirrors the raw x coordinate
against the panel width (`x = (self.display.width - 1) - x`) and overwrites
both slots of the store. The previous store content is discarded. -/
def touch_handler (width : Int) (_s : Store) (x y : Int) : Store :=
  ⟨(width - 1) - x, y⟩

/-- Embeds `CYD.touches(self)`: reads `self._x, self._y` into locals,
resets both fields to `0`, and returns the locals as a pair. -/
def touches (s : Store) : (Int × Int) × Store :=
  ((s.x, s.y), ⟨0, 0⟩)

/-- The double-tap detection state: the field `self.last_tap`,
initialised to the sentinel `(-1, -1)` in `CYD.__init__`. -/
structure TapState where
  last_tap : Int × Int
deriving DecidableEq, Repr

/-- Embeds `CYD.double_tap(self, x, y, error_margin=5)`: if both axes of
`(x, y)` lie within `error_margin` of `self.last_tap`, the state is reset
to the sentinel `(-1, -1)` and the call returns `True`; otherwise
`self.last_tap` is set to `(x, y)` and the call returns `False`. -/
def double_tap (s : TapState) (x y error_margin : Int) : Bool × TapState :=
  if s.last_tap.1 - error_margin ≤ x ∧ s.last_tap.1 + error_margin ≥ x ∧
     s.last_tap.2 - error_margin ≤ y ∧ s.last_tap.2 + error_margin ≥ y then
    (true, ⟨(-1, -1)⟩)
  else
    (false, ⟨(x, y)⟩)

/-- Claim C1: `touches()` is consuming. For every stored sample the call
returns exactly that sample and resets the store to the sentinel `(0,0)`,
so a second call with no intervening interrupt returns `(0,0)`. -/
theorem touches_consuming (s : Store) :
    touches s = ((s.x, s.y), ⟨0, 0⟩) ∧ (touches (touches s).2).1 = (0, 0) :=
  ⟨rfl, rfl⟩

/-- Claim C3 counterexample: with the sentinel `(-1,-1)` stored (no prior
tap recorded), a first tap at `(0, 0)` with `error_margin = 5` is classified
as a double-tap — `double_tap` returns `true`, not `false` as claimed. -/
theorem double_tap_sentinel_ctrex :
    (double_tap ⟨(-1, -1)⟩ 0 0 5).1 = true := by decide

/-- Claim C3 amended: from the sentinel state `(-1,-1)`, `double_tap`
returns `true` exactly when the sample itself lies within `error_margin`
of `(-1,-1)` on both axes; for every sample outside that box the first call
returns `false`. -/
theorem double_tap_sentinel_amended (x y e : Int) :
    (double_tap ⟨(-1, -1)⟩ x y e).1 = true ↔
      (-1 - e ≤ x ∧ x ≤ -1 + e ∧ -1 - e ≤ y ∧ y ≤ -1 + e) := by
  unfold double_tap
  constructor
  · intro h
    by_contra hn
    have hc : ¬ ((-1 : Int) - e ≤ x ∧ (-1 : Int) + e ≥ x ∧
        (-1 : Int) - e ≤ y ∧ (-1 : Int) + e ≥ y) :=
      fun hk => hn ⟨hk.1, hk.2.1, hk.2.2.1, hk.2.2.2⟩
    rw [if_neg hc] at h
    exact Bool.noConfusion h
  · intro h
    rw [if_pos ⟨h.1, h.2.1, h.2.2.1, h.2.2.2⟩]

/-- Claim C6: `double_tap` returns `true` and resets the state to the
sentinel `(-1,-1)` exactly when both axes lie within `error_margin` of the
stored previous tap, and otherwise stores the sample and returns `false`;
in particular taps at `(100,100)`, `(102,98)`, `(100,100)` from the
sentinel state with `error_margin = 5` yield `false`, `true`, `false`. -/
theorem double_tap_spec (s : TapState) (x y e : Int) :
    (double_tap s x y e = (true, ⟨(-1, -1)⟩) ↔
      (s.last_tap.1 - e ≤ x ∧ x ≤ s.last_tap.1 + e ∧
       s.last_tap.2 - e ≤ y ∧ y ≤ s.last_tap.2 + e)) ∧
    (¬ (s.last_tap.1 - e ≤ x ∧ x ≤ s.last_tap.1 + e ∧
        s.last_tap.2 - e ≤ y ∧ y ≤ s.last_tap.2 + e) →
      double_tap s x y e = (false, ⟨(x, y)⟩)) ∧
    (double_tap ⟨(-1, -1)⟩ 100 100 5 = (false, ⟨(100, 100)⟩) ∧
     double_tap ⟨(100, 100)⟩ 102 98 5 = (true, ⟨(-1, -1)⟩) ∧
     double_tap ⟨(-1, -1)⟩ 100 100 5 = (false, ⟨(100, 100)⟩)) := by
  refine ⟨?_, ?_, by decide, by decide, by decide⟩
  · unfold double_tap
    constructor
    · intro h
      by_contra hn
      have hc : ¬ (s.last_tap.1 - e ≤ x ∧ s.last_tap.1 + e ≥ x ∧
          s.last_tap.2 - e ≤ y ∧ s.last_tap.2 + e ≥ y) :=
        fun hk => hn ⟨hk.1, hk.2.1, hk.2.2.1, hk.2.2.2⟩
      rw [if_neg hc] at h
      exact Bool.noConfusion (congrArg Prod.fst h)
    · intro h
      rw [if_pos ⟨h.1, h.2.1, h.2.2.1, h.2.2.2⟩]
  · intro h
    unfold double_tap
    have hc : ¬ (s.last_tap.1 - e ≤ x ∧ s.last_tap.1 + e ≥ x ∧
        s.last_tap.2 - e ≤ y ∧ s.last_tap.2 + e ≥ y) :=
      fun hk => h ⟨hk.1, hk.2.1, hk.2.2.1, hk.2.2.2⟩
    rw [if_neg hc]

/-- Claim C6 witness: the theorem applied at the sentinel state with the
out-of-margin sample `(200, 200)`. -/
theorem double_tap_spec_witness :
    double_tap ⟨(100, 100)⟩ 200 200 5 = (false, ⟨(200, 200)⟩) :=
  (double_tap_spec ⟨(100, 100)⟩ 200 200 5).2.1 (by decide)

/-- Embeds `CYD._remap(self, value, in_min, in_max, out_min, out_max)`:
`in_span = in_max - in_min`, `out_span = out_max - out_min`,
`scale = out_span / in_span`, result `out_min + (value - in_min) * scale`.
Python float arithmetic is modelled over `ℚ`. -/
def remap (value in_min in_max out_min out_max : ℚ) : ℚ :=
  let in_span := in_max - in_min
  let out_span := out_max - out_min
  let scale := out_span / in_span
  out_min + (value - in_min) * scale

/-- The remap formula exactly as the spec writes it, with `(out_max - in_min)`
in the numerator, for comparison against `remap` from the source. -/
def remap_spec_formula (value in_min in_max out_min out_max : ℚ) : ℚ :=
  out_min + (value - in_min) * (out_max - in_min) / (in_max - in_min)

/-- Claim C4 counterexample: at `(value, in_min, in_max, out_min, out_max)
= (1, 0, 2, 10, 20)` the source computes `15` while the written formula of the spec, which uses `(out_max - in_min)` instead of `(out_max - out_min)`,
gives `20` — the claimed identity fails although `in_max ≠ in_min`. -/
theorem remap_spec_formula_ctrex :
    remap 1 0 2 10 20 = 15 ∧ remap_spec_formula 1 0 2 10 20 = 20 ∧
      remap 1 0 2 10 20 ≠ remap_spec_formula 1 0 2 10 20 := by
  refine ⟨?_, ?_, ?_⟩ <;> norm_num [remap, remap_spec_formula]

/-- Claim C4 amended: for all arguments with `in_max ≠ in_min`, `_remap`
computes the linear interpolation
`out_min + (value - in_min) * (out_max - out_min) / (in_max - in_min)`,
with `(out_max - out_min)` in the numerator rather than
`(out_max - in_min)` as the spec writes it. -/
theorem remap_linear_amended (value in_min in_max out_min out_max : ℚ)
    (h : in_max ≠ in_min) :
    remap value in_min in_max out_min out_max =
      out_min + (value - in_min) * (out_max - out_min) / (in_max - in_min) := by
  unfold remap
  rw [mul_div_assoc]

/-- Claim C4 amended witness: the amended theorem applied at
`(1, 0, 2, 10, 20)` where `in_max = 2 ≠ 0 = in_min`. -/
theorem remap_linear_amended_witness :
    (2 : ℚ) ≠ 0 ∧
      remap 1 0 2 10 20 = 10 + (1 - 0) * (20 - 10) / (2 - 0) :=
  ⟨by norm_num, remap_linear_amended 1 0 2 10 20 (by norm_num)⟩

/-- The SD-card state flags `self._sd_ready`, `self._sd_mounted` of the
`CYD` class, both initialised to `False` in `CYD.__init__`. -/
structure SDState where
  sd_ready : Bool
  sd_mounted : Bool
deriving DecidableEq, Repr

/-- The hardware environment the SD code runs against: whether
`SDCard(slot=2)` succeeds, whether `os.mount(...)` succeeds and whether
`os.unmount(...)` succeeds (each raises an `OSError` when it fails). -/
structure SDEnv where
  card_ok : Bool
  mount_ok : Bool
  unmount_ok : Bool
deriving DecidableEq, Repr

/-- The body of the `try:` block of `CYD.mount_sd`: runs
`if not ready: sd = SDCard(slot=2); ready = True` then
`if ready: os.mount(sd, /sd); mounted = True`, stopping at the first
raising call. Returns the state reached together with the pending
exception, if any (mutations before the raise persist, as in Python). -/
def mount_sd_body (env : SDEnv) (s : SDState) : SDState × Option String :=
  if s.sd_ready = false then
    if env.card_ok = false then
      (s, some "OSError")
    else
      let s1 : SDState := { s with sd_ready := true }
      if env.mount_ok = false then
        (s1, some "OSError")
      else
        ({ s1 with sd_mounted := true }, none)
  else
    if env.mount_ok = false then
      (s, some "OSError")
    else
      ({ s with sd_mounted := true }, none)

/-- Embeds `CYD.mount_sd(self)`: the body wrapped in `try/except` with a
bare `except` that prints and swallows every exception, so no exception
ever reaches the caller (second component is always `none`). -/
def mount_sd (env : SDEnv) (s : SDState) : SDState × Option String :=
  match mount_sd_body env s with
  | (s1, _) => (s1, none)

/-- Embeds `CYD.unmount_sd(self)`: inside `try/except`, if
`self._sd_mounted == True` run `os.unmount(/sd)` and set
`self._sd_mounted = False`; a raising unmount is swallowed and leaves the
flags unchanged; when not mounted nothing at all happens. -/
def unmount_sd (env : SDEnv) (s : SDState) : SDState × Option String :=
  if s.sd_mounted = true then
    if env.unmount_ok = false then
      (s, none)
    else
      ({ s with sd_mounted := false }, none)
  else
    (s, none)

/-- Claim C7: `unmount_sd` on an unmounted state changes nothing;
`mount_sd` never lets an exception reach the caller; and when the
low-level card initialization fails, any number of repeated `mount_sd`
calls starting from the fresh state leave `ready = false` and
`mounted = false`. -/
theorem sd_state_machine :
    (∀ (env : SDEnv) (s : SDState), s.sd_mounted = false →
      unmount_sd env s = (s, none)) ∧
    (∀ (env : SDEnv) (s : SDState), (mount_sd env s).2 = none) ∧
    (∀ (env : SDEnv) (n : ℕ), env.card_ok = false →
      (fun t => (mount_sd env t).1)^[n] ⟨false, false⟩ =
        (⟨false, false⟩ : SDState)) := by
  refine ⟨?_, ?_, ?_⟩
  · intro env s hs
    unfold unmount_sd
    rw [hs]
    simp
  · intro env s
    unfold mount_sd
    rcases mount_sd_body env s with ⟨s1, e⟩
    rfl
  · intro env n henv
    induction n with
    | zero => rfl
    | succ k ih =>
        rw [Function.iterate_succ_apply, show
          (mount_sd env (⟨false, false⟩ : SDState)).1 =
            (⟨false, false⟩ : SDState) by
          unfold mount_sd mount_sd_body
          rw [henv]
          simp]
        exact ih

/-- Claim C7 witness: the three parts applied at a concrete environment in
which the card is absent (`card_ok = false`): unmounting the fresh state
is a no-op, mounting raises nothing, and two mount attempts in a row leave
both flags false. -/
theorem sd_state_machine_witness :
    unmount_sd ⟨false, false, false⟩ ⟨false, false⟩ =
      ((⟨false, false⟩ : SDState), none) ∧
    (mount_sd ⟨false, false, false⟩ ⟨false, false⟩).2 = none ∧
    (fun t => (mount_sd (⟨false, false, false⟩ : SDEnv) t).1)^[2]
      ⟨false, false⟩ = (⟨false, false⟩ : SDState) :=
  ⟨sd_state_machine.1 ⟨false, false, false⟩ ⟨false, false⟩ rfl,
   sd_state_machine.2.1 ⟨false, false, false⟩ ⟨false, false⟩,
   sd_state_machine.2.2 ⟨false, false, false⟩ 2 rfl⟩

/-- One step of `CYD.shutdown(self)`, in source order: the three drawing
calls, the two-second sleep, the SD unmount, the speaker PWM release, the
RGB-off writes, the backlight disable, the display cleanup and the final
print. -/
inductive ShutdownEvent where
  | fill_rect
  | draw_rect
  | draw_text
  | sleep2s
  | sd_unmount
  | speaker_deinit
  | rgb_off
  | backlight_off
  | display_cleanup
  | goodbye
deriving DecidableEq, Repr

/-- Embeds `CYD.shutdown(self)` as the trace of steps it executes, plus
the exception that escapes, if any. `shutdown` has no `try/except`, so a
raising step ends the sequence. With `rgb_pmw == False` every step runs:
the three RGB pins are written high (`value(1)`, the active-low off
state), then the backlight is disabled and the display released. With
`rgb_pmw == True` the branch executes `self.rgb(0,0,0)` — three positional
arguments passed to `def rgb(self, color)`, which accepts exactly one —
so Python raises `TypeError` before any RGB duty write, and the backlight
disable and display cleanup never execute. -/
def shutdown (rgb_pmw : Bool) : List ShutdownEvent × Option String :=
  let pre : List ShutdownEvent :=
    [ShutdownEvent.fill_rect, ShutdownEvent.draw_rect, ShutdownEvent.draw_text,
     ShutdownEvent.sleep2s, ShutdownEvent.sd_unmount, ShutdownEvent.speaker_deinit]
  if rgb_pmw = false then
    (pre ++ [ShutdownEvent.rgb_off, ShutdownEvent.backlight_off,
             ShutdownEvent.display_cleanup, ShutdownEvent.goodbye], none)
  else
    (pre, some "TypeError: rgb() takes 2 positional arguments but 4 were given")

/-- Claim C2: with `rgb_pmw = False` the shutdown sequence does reach the
RGB-off, backlight-off and display-cleanup steps, but with
`rgb_pmw = True` the call `self.rgb(0,0,0)` raises `TypeError` (three
positional arguments to `def rgb(self, color)`), so the RGB indicator is
never forced off and neither the backlight disable nor the display
cleanup executes — the claim fails on the intensity-mode configuration. -/
theorem shutdown_pmw_typeerror :
    (shutdown false).2 = none ∧
    ShutdownEvent.rgb_off ∈ (shutdown false).1 ∧
    ShutdownEvent.backlight_off ∈ (shutdown false).1 ∧
    ShutdownEvent.display_cleanup ∈ (shutdown false).1 ∧
    (shutdown true).2 =
      some "TypeError: rgb() takes 2 positional arguments but 4 were given" ∧
    ShutdownEvent.rgb_off ∉ (shutdown true).1 ∧
    ShutdownEvent.backlight_off ∉ (shutdown true).1 ∧
    ShutdownEvent.display_cleanup ∉ (shutdown true).1 := by
  refine ⟨rfl, ?_, ?_, ?_, rfl, ?_, ?_, ?_⟩ <;> decide

/-- Claim C5 counterexample: in the completed shutdown trace
(`rgb_pmw = False`) the backlight is disabled at index 7, strictly before
the display cleanup at index 8, so the backlight disable does not occur
after all other teardown steps have completed. -/
theorem shutdown_order_ctrex :
    (shutdown false).1.indexOf ShutdownEvent.backlight_off <
      (shutdown false).1.indexOf ShutdownEvent.display_cleanup := by
  decide

/-- Claim C5 amended: the display cleanup occurs strictly after the
storage unmount and the audio release, and the backlight disable occurs
after the storage unmount, the audio release and the RGB-off step, but
before the display cleanup, which is the final teardown step. -/
theorem shutdown_order_amended :
    (shutdown false).1.indexOf ShutdownEvent.sd_unmount <
      (shutdown false).1.indexOf ShutdownEvent.display_cleanup ∧
    (shutdown false).1.indexOf ShutdownEvent.speaker_deinit <
      (shutdown false).1.indexOf ShutdownEvent.display_cleanup ∧
    (shutdown false).1.indexOf ShutdownEvent.sd_unmount <
      (shutdown false).1.indexOf ShutdownEvent.backlight_off ∧
    (shutdown false).1.indexOf ShutdownEvent.speaker_deinit <
      (shutdown false).1.indexOf ShutdownEvent.backlight_off ∧
    (shutdown false).1.indexOf ShutdownEvent.rgb_off <
      (shutdown false).1.indexOf ShutdownEvent.backlight_off ∧
    (shutdown false).1.indexOf ShutdownEvent.backlight_off <
      (shutdown false).1.indexOf ShutdownEvent.display_cleanup := by
  refine ⟨?_, ?_, ?_, ?_, ?_, ?_⟩ <;> decide

/-- A run of `touches()` against a touch interrupt that is delivered once
during the call, broken at the MicroPython bytecode boundaries of the
method body: step 0 reads `self._x` into the local `x`, step 1 reads
`self._y` into the local `y`, step 2 writes `0` to `self._x`, step 3
writes `0` to `self._y`. The handler (with raw sample `(rawx, rawy)`,
running `_touch_handler` in full) fires just before step `k`; `k = 4`
means it fires after the last write but before the call returns. -/
def touchesAt (k : ℕ) (width rawx rawy : Int) (s : Store) :
    (Int × Int) × Store :=
  let s0 := if k = 0 then touch_handler width s rawx rawy else s
  let lx := s0.x
  let s1 := if k = 1 then touch_handler width s0 rawx rawy else s0
  let ly := s1.y
  let s2 := if k = 2 then touch_handler width s1 rawx rawy else s1
  let s3 : Store := { s2 with x := 0 }
  let s4 := if k = 3 then touch_handler width s3 rawx rawy else s3
  let s5 : Store := { s4 with y := 0 }
  let s6 := if k = 4 then touch_handler width s5 rawx rawy else s5
  ((lx, ly), s6)

/-- Claim C8 counterexample: stored sample `(10, 20)`, panel width 240,
raw interrupt sample `(209, 40)` whose corrected coordinates are
`(30, 40)`. If the handler fires between the read of `_x` and the read of
`_y` (`k = 1`), `touches()` returns `(10, 40)` — neither the pre-interrupt
sample `(10, 20)` nor the post-interrupt sample `(30, 40)` but a mix of
the two; and if it fires between the reads and the clears (`k = 2`), the
sample `(30, 40)` of the interrupt is erased by the clear: the call returns
`(10, 20)` and the store ends at `(0, 0)`, so the sample is lost. -/
theorem touches_interleave_ctrex :
    (touchesAt 1 240 209 40 ⟨10, 20⟩).1 = (10, 40) ∧
    (10, 40) ≠ ((10 : Int), (20 : Int)) ∧
    (10, 40) ≠ ((30 : Int), (40 : Int)) ∧
    touchesAt 2 240 209 40 ⟨10, 20⟩ = ((10, 20), ⟨0, 0⟩) := by
  refine ⟨?_, ?_, ?_, ?_⟩ <;> decide

/-- Claim C8 amended: the read-then-clear in `touches()` is not atomic.
Writing `cx = (width - 1) - rawx` for the corrected x coordinate, the
possible single-interrupt interleavings are exactly: handler before the
reads (`k = 0`) returns the new sample in full; handler between the two
reads (`k = 1`) returns the mixed pair `(s.x, rawy)`; handler between
the reads and the first clear (`k = 2`) returns the old sample but the
new sample is wiped from the store; handler between the two clears
(`k = 3`) leaves the corrupted store `(cx, 0)`; only the handler firing
after both clears (`k = 4`) returns the old sample and preserves the new
one. -/
theorem touches_interleave_amended (width rawx rawy : Int) (s : Store) :
    touchesAt 0 width rawx rawy s =
      (((width - 1) - rawx, rawy), ⟨0, 0⟩) ∧
    touchesAt 1 width rawx rawy s = ((s.x, rawy), ⟨0, 0⟩) ∧
    touchesAt 2 width rawx rawy s = ((s.x, s.y), ⟨0, 0⟩) ∧
    touchesAt 3 width rawx rawy s =
      ((s.x, s.y), ⟨(width - 1) - rawx, 0⟩) ∧
    touchesAt 4 width rawx rawy s =
      ((s.x, s.y), ⟨(width - 1) - rawx, rawy⟩) :=
  ⟨rfl, rfl, rfl, rfl, rfl⟩

/-- Claim C9: a raw touch at `(display.width - 1, 0)` is corrected by
`_touch_handler` to `(0, 0)`, which is exactly the sentinel state that
`touches()` resets to, so the following `touches()` call returns `(0, 0)`
and the touch is indistinguishable at the public interface from no touch
having occurred. -/
theorem touch_origin_sentinel (width : Int) (s t : Store) :
    touch_handler width s (width - 1) 0 = ⟨0, 0⟩ ∧
    touch_handler width s (width - 1) 0 = (touches t).2 ∧
    (touches (touch_handler width s (width - 1) 0)).1 = (0, 0) := by
  refine ⟨?_, ?_, ?_⟩
  · unfold touch_handler
    simp
  · unfold touch_handler touches
    simp
  · unfold touch_handler touches
    simp

/-- The physical world a GPIO read sees: the current logical level of each
pin, indexed by pin number, at the moment the accessor is invoked. -/
def PinEnv : Type := ℕ → ℕ

/-- A `machine.Pin` handle, identified by its pin number. -/
structure Pin where
  id : ℕ
deriving DecidableEq, Repr

/-- The attribute `pin.value` without call parentheses: the bound accessor
method, which when later invoked reads the level of the pin at that moment. -/
def Pin.value (p : Pin) : PinEnv → ℕ :=
  fun env => env p.id

/-- The boot-button handle `self._button_boot = Pin(0, Pin.IN)`. -/
def button_boot_pin : Pin := ⟨0⟩

/-- Embeds `CYD.button_boot(self)`: `return self._button_boot.value` — the
accessor attribute is returned without being called, so the physical
button state `now` at call time plays no part in the result. -/
def button_boot (p : Pin) (_now : PinEnv) : PinEnv → ℕ :=
  p.value

/-- Claim C10: `button_boot()` returns the `value` accessor of the pin itself,
uninvoked: the result is the same function whatever the physical button
state at call time, it is never an integer pin reading taken during the
call, and only when the caller later invokes it does it read the level
current at that later moment. -/
theorem button_boot_accessor (p : Pin) (now now2 later : PinEnv) :
    button_boot p now = button_boot p now2 ∧
    button_boot p now = p.value ∧
    button_boot p now later = later p.id :=
  ⟨rfl, rfl, rfl⟩

end Cydr
